import Mathlib

/-!
Verification of `app/routers/sales_cases.py`: an HTTP router exposing
create / list / read / return endpoints for sales cases.  The router
delegates all business logic to a `crud` collaborator; here each handler
is embedded as a pure function taking the relevant CRUD call (or its
outcome) as an explicit argument, and the exception-to-HTTP translation
performed by the Python `try/except` blocks is made explicit in a
`HandlerResult` type.
-/

/-- Role of an authenticated user (`models.UserRole`). -/
inductive UserRole
  | ADMIN
  | SALES_REP
deriving DecidableEq, Repr

/-- An authenticated user (`models.User`), as far as the router inspects it:
an `id` and a `role`. -/
structure User where
  id : Int
  role : UserRole
deriving DecidableEq, Repr

/-- Status of a sales case (`models.SalesCaseStatus`); the router treats it
opaquely, so any type with decidable equality serves. -/
abbrev SalesCaseStatus := Nat

/-- A sales case as the router inspects it: its id, the id of the sales
representative it is assigned to, and a status.  Other fields (stock
quantities) are owned by the CRUD layer and never read by the router. -/
structure SalesCase where
  case_id : Int
  sales_rep_id : Int
  status : SalesCaseStatus
deriving DecidableEq, Repr

/-- Exceptions that a CRUD call can raise, as the router distinguishes
them: `ValueError` and `PermissionError` carry a message (`str(e)`), and
every other exception class is `otherError` with its class name and
message. -/
inductive PyExc
  | valueError (msg : String)
  | permissionError (msg : String)
  | otherError (name : String) (msg : String)
deriving DecidableEq, Repr

/-- Observable outcome of one handler invocation:
`response code body` (a normal return, sent with the route's success
status code), `httpError code detail` (an `HTTPException` raised by the
handler), or `uncaught e` (an exception the handler does not catch,
propagating to the framework). -/
inductive HandlerResult (α : Type)
  | response (code : Nat) (body : α)
  | httpError (code : Nat) (detail : String)
  | uncaught (e : PyExc)
deriving DecidableEq, Repr

/-- Success / error code of a handler outcome; `none` for an uncaught
exception (the framework decides its status). -/
def HandlerResult.statusCode {α : Type} : HandlerResult α → Option Nat
  | .response c _ => some c
  | .httpError c _ => some c
  | .uncaught _ => none

/-- `POST /sales-cases/` (`create_new_sales_case`): calls
`crud.create_sales_case` and returns the new case (201 by the route's
`status_code`); a `ValueError` is converted to `HTTPException 400` with
`str(e)` as detail; any other exception propagates. -/
def create_new_sales_case (crud_create_sales_case : Except PyExc SalesCase) :
    HandlerResult SalesCase :=
  match crud_create_sales_case with
  | .ok new_case => .response 201 new_case
  | .error (.valueError e) => .httpError 400 e
  | .error e => .uncaught e

/-- `GET /sales-cases/` (`read_sales_cases`): calls
`crud.get_sales_cases(db, current_user, status=status, sales_rep_id=sales_rep_id)`
and returns its result; no `try/except`, so any exception propagates. -/
def read_sales_cases
    (crud_get_sales_cases :
      User → Option SalesCaseStatus → Option Int → Except PyExc (List SalesCase))
    (status : Option SalesCaseStatus) (sales_rep_id : Option Int)
    (current_user : User) : HandlerResult (List SalesCase) :=
  match crud_get_sales_cases current_user status sales_rep_id with
  | .ok cases => .response 200 cases
  | .error e => .uncaught e

/-- `GET /sales-cases/\x7bcase_id\x7d` (`read_sales_case`): looks the case up
via `crud.get_sales_case`; if absent raises `HTTPException 404`; then, if
the caller is a `SALES_REP` and the case belongs to a different rep,
raises `HTTPException 403`; otherwise returns the case. -/
def read_sales_case (crud_get_sales_case : Int → Option SalesCase)
    (case_id : Int) (current_user : User) : HandlerResult SalesCase :=
  match crud_get_sales_case case_id with
  | none => .httpError 404 "Sales case not found"
  | some db_case =>
      if current_user.role = UserRole.SALES_REP ∧ db_case.sales_rep_id ≠ current_user.id
      then .httpError 403 "Not authorized to view this sales case"
      else .response 200 db_case

/-- `POST /sales-cases/\x7bcase_id\x7d/return` (`return_sales_case`): calls
`crud.process_sales_case_return(db, case_id, return_request, current_user)`
and returns the report; a `ValueError` becomes `HTTPException 400`, a
`PermissionError` becomes `HTTPException 403`, each with `str(e)` as
detail; any other exception propagates.  The router is parametric in the
request and report payload types, which it never inspects. -/
def return_sales_case {Req Rep : Type}
    (crud_process_sales_case_return : Int → Req → User → Except PyExc Rep)
    (case_id : Int) (return_request : Req) (current_user : User) :
    HandlerResult Rep :=
  match crud_process_sales_case_return case_id return_request current_user with
  | .ok report => .response 200 report
  | .error (.valueError e) => .httpError 400 e
  | .error (.permissionError e) => .httpError 403 e
  | .error e => .uncaught e

/-- Modelled from the spec: `crud.get_sales_cases` is not under `src/`
(only its caller, the router, is).  Per the spec, an admin may pass any
filter ("ADMINS: Podem ver todos e filtrar por sales_rep_id"), while "a
sales rep is always scoped to their own cases regardless of requested
filter (enforced inside CRUD, trusted by router)".  `db` stands for the
stored cases. -/
def get_sales_cases (db : List SalesCase) (current_user : User)
    (status : Option SalesCaseStatus) (sales_rep_id : Option Int) :
    List SalesCase :=
  let byStatus := db.filter (fun c =>
    match status with
    | none => true
    | some s => c.status == s)
  match current_user.role with
  | UserRole.SALES_REP =>
      byStatus.filter (fun c => c.sales_rep_id == current_user.id)
  | UserRole.ADMIN =>
      match sales_rep_id with
      | none => byStatus
      | some rid => byStatus.filter (fun c => c.sales_rep_id == rid)

/-- C1: for an existing sales case, `GET /sales-cases/{case_id}` raises
HTTP 403 when the caller is a `SALES_REP` and the case's `sales_rep_id`
differs from the caller's id, and returns the case (with no authorization
error) when the caller is an `ADMIN` or the owning `SALES_REP`. -/
theorem C1_read_case_authorization
    (g : Int → Option SalesCase) (case_id : Int) (u : User) (c : SalesCase)
    (hget : g case_id = some c) :
    (u.role = UserRole.SALES_REP → c.sales_rep_id ≠ u.id →
      read_sales_case g case_id u =
        .httpError 403 "Not authorized to view this sales case")
    ∧ (u.role = UserRole.ADMIN → read_sales_case g case_id u = .response 200 c)
    ∧ (u.role = UserRole.SALES_REP → c.sales_rep_id = u.id →
      read_sales_case g case_id u = .response 200 c) := by
  have h : read_sales_case g case_id u =
      if u.role = UserRole.SALES_REP ∧ c.sales_rep_id ≠ u.id
      then .httpError 403 "Not authorized to view this sales case"
      else .response 200 c := by
    unfold read_sales_case
    rw [hget]
  refine ⟨fun hr hne => ?_, fun hr => ?_, fun hr heq => ?_⟩
  · rw [h, if_pos ⟨hr, hne⟩]
  · rw [h, if_neg]
    rintro ⟨hr2, -⟩
    rw [hr] at hr2
    exact UserRole.noConfusion hr2
  · rw [h, if_neg]
    rintro ⟨-, hne⟩
    exact hne heq

/-- Witness for C1 at concrete inputs: a foreign rep gets 403, an admin
and the owning rep get the case. -/
theorem C1_witness :
    read_sales_case (fun _ => some ⟨1, 2, 0⟩) 1 ⟨3, UserRole.SALES_REP⟩ =
      .httpError 403 "Not authorized to view this sales case"
    ∧ read_sales_case (fun _ => some ⟨1, 2, 0⟩) 1 ⟨3, UserRole.ADMIN⟩ =
      .response 200 ⟨1, 2, 0⟩
    ∧ read_sales_case (fun _ => some ⟨1, 2, 0⟩) 1 ⟨2, UserRole.SALES_REP⟩ =
      .response 200 ⟨1, 2, 0⟩ :=
  ⟨(C1_read_case_authorization (fun _ => some ⟨1, 2, 0⟩) 1
      ⟨3, UserRole.SALES_REP⟩ ⟨1, 2, 0⟩ rfl).1 rfl (by decide),
   (C1_read_case_authorization (fun _ => some ⟨1, 2, 0⟩) 1
      ⟨3, UserRole.ADMIN⟩ ⟨1, 2, 0⟩ rfl).2.1 rfl,
   (C1_read_case_authorization (fun _ => some ⟨1, 2, 0⟩) 1
      ⟨2, UserRole.SALES_REP⟩ ⟨1, 2, 0⟩ rfl).2.2 rfl rfl⟩

/-- C2: whenever `crud.get_sales_case` yields `None`, the
`GET /sales-cases/{case_id}` handler raises HTTP 404 with detail
"Sales case not found", for every authenticated caller. -/
theorem C2_read_case_404
    (g : Int → Option SalesCase) (case_id : Int) (u : User)
    (h : g case_id = none) :
    read_sales_case g case_id u = .httpError 404 "Sales case not found" := by
  unfold read_sales_case
  rw [h]

/-- Witness for C2 at a concrete input. -/
theorem C2_witness :
    read_sales_case (fun _ => none) 7 ⟨3, UserRole.SALES_REP⟩ =
      .httpError 404 "Sales case not found" :=
  C2_read_case_404 (fun _ => none) 7 ⟨3, UserRole.SALES_REP⟩ rfl

/-- C3: in `POST /sales-cases/{case_id}/return`, a `ValueError` with
message `m` from `crud.process_sales_case_return` becomes HTTP 400 with
detail `m`, a `PermissionError` with message `m` becomes HTTP 403 with
detail `m`, and a returned report is returned unchanged. -/
theorem C3_return_translation {Req Rep : Type}
    (p : Int → Req → User → Except PyExc Rep)
    (case_id : Int) (req : Req) (u : User) :
    (∀ m, p case_id req u = .error (.valueError m) →
      return_sales_case p case_id req u = .httpError 400 m)
    ∧ (∀ m, p case_id req u = .error (.permissionError m) →
      return_sales_case p case_id req u = .httpError 403 m)
    ∧ (∀ r, p case_id req u = .ok r →
      return_sales_case p case_id req u = .response 200 r) := by
  refine ⟨fun m hm => ?_, fun m hm => ?_, fun r hr => ?_⟩ <;>
    unfold return_sales_case
  · rw [hm]
  · rw [hm]
  · rw [hr]

/-- Witness for C3 at concrete inputs (payload types instantiated at
`Nat`): each of the three CRUD outcomes is exercised. -/
theorem C3_witness :
    return_sales_case
      (fun _ _ _ => (Except.error (PyExc.valueError "low stock") : Except PyExc Nat))
      1 (0 : Nat) ⟨1, UserRole.ADMIN⟩ = .httpError 400 "low stock"
    ∧ return_sales_case
      (fun _ _ _ => (Except.error (PyExc.permissionError "not yours") : Except PyExc Nat))
      1 (0 : Nat) ⟨1, UserRole.SALES_REP⟩ = .httpError 403 "not yours"
    ∧ return_sales_case (fun _ _ _ => Except.ok (42 : Nat))
      1 (0 : Nat) ⟨1, UserRole.ADMIN⟩ = .response 200 42 :=
  ⟨(C3_return_translation
      (fun _ _ _ => (Except.error (PyExc.valueError "low stock") : Except PyExc Nat))
      1 (0 : Nat) ⟨1, UserRole.ADMIN⟩).1 "low stock" rfl,
   (C3_return_translation
      (fun _ _ _ => (Except.error (PyExc.permissionError "not yours") : Except PyExc Nat))
      1 (0 : Nat) ⟨1, UserRole.SALES_REP⟩).2.1 "not yours" rfl,
   (C3_return_translation (fun _ _ _ => Except.ok (42 : Nat))
      1 (0 : Nat) ⟨1, UserRole.ADMIN⟩).2.2 42 rfl⟩

/-- C4 counterexample: the claim says every endpoint translates a
`PermissionError` to HTTP 403, "in particular ... the create endpoint";
but `create_new_sales_case` catches only `ValueError`, so a
`PermissionError` with message "nope" propagates uncaught instead of
becoming HTTP 403. -/
theorem C4_counterexample :
    create_new_sales_case (Except.error (PyExc.permissionError "nope")) ≠
      HandlerResult.httpError 403 "nope"
    ∧ create_new_sales_case (Except.error (PyExc.permissionError "nope")) =
      HandlerResult.uncaught (PyExc.permissionError "nope") := by
  constructor
  · intro h
    exact HandlerResult.noConfusion h
  · rfl

/-- C4 amended: in the create and return endpoints a `ValueError` is
translated to HTTP 400 with its message as detail; a `PermissionError` is
translated to HTTP 403 in the return endpoint only — in the create
endpoint it propagates uncaught. -/
theorem C4_amended_translation {Req Rep : Type}
    (cres : Except PyExc SalesCase)
    (p : Int → Req → User → Except PyExc Rep)
    (case_id : Int) (req : Req) (u : User) :
    (∀ m, cres = .error (.valueError m) →
      create_new_sales_case cres = .httpError 400 m)
    ∧ (∀ m, cres = .error (.permissionError m) →
      create_new_sales_case cres = .uncaught (.permissionError m))
    ∧ (∀ m, p case_id req u = .error (.valueError m) →
      return_sales_case p case_id req u = .httpError 400 m)
    ∧ (∀ m, p case_id req u = .error (.permissionError m) →
      return_sales_case p case_id req u = .httpError 403 m) := by
  refine ⟨fun m hm => ?_, fun m hm => ?_, fun m hm => ?_, fun m hm => ?_⟩ <;>
    first
    | (unfold create_new_sales_case; rw [hm])
    | (unfold return_sales_case; rw [hm])

/-- Witness for the amended C4 at concrete inputs, one per conjunct. -/
theorem C4_witness :
    create_new_sales_case (Except.error (PyExc.valueError "bad rep")) =
      .httpError 400 "bad rep"
    ∧ create_new_sales_case (Except.error (PyExc.permissionError "nope")) =
      .uncaught (.permissionError "nope")
    ∧ return_sales_case
      (fun _ _ _ => (Except.error (PyExc.valueError "bad qty") : Except PyExc Nat))
      2 (0 : Nat) ⟨5, UserRole.ADMIN⟩ = .httpError 400 "bad qty"
    ∧ return_sales_case
      (fun _ _ _ => (Except.error (PyExc.permissionError "denied") : Except PyExc Nat))
      2 (0 : Nat) ⟨5, UserRole.SALES_REP⟩ = .httpError 403 "denied" :=
  ⟨(C4_amended_translation (Except.error (PyExc.valueError "bad rep"))
      (fun _ _ _ => (Except.ok 0 : Except PyExc Nat)) 2 (0 : Nat)
      ⟨5, UserRole.ADMIN⟩).1 "bad rep" rfl,
   (C4_amended_translation (Except.error (PyExc.permissionError "nope"))
      (fun _ _ _ => (Except.ok 0 : Except PyExc Nat)) 2 (0 : Nat)
      ⟨5, UserRole.ADMIN⟩).2.1 "nope" rfl,
   (C4_amended_translation (Except.ok ⟨1, 1, 0⟩)
      (fun _ _ _ => (Except.error (PyExc.valueError "bad qty") : Except PyExc Nat))
      2 (0 : Nat) ⟨5, UserRole.ADMIN⟩).2.2.1 "bad qty" rfl,
   (C4_amended_translation (Except.ok ⟨1, 1, 0⟩)
      (fun _ _ _ => (Except.error (PyExc.permissionError "denied") : Except PyExc Nat))
      2 (0 : Nat) ⟨5, UserRole.SALES_REP⟩).2.2.2 "denied" rfl⟩

/-- C5: in `POST /sales-cases/`, a `ValueError` with message `m` from
`crud.create_sales_case` becomes HTTP 400 with detail `m`, and a created
case is returned unchanged with status 201. -/
theorem C5_create_translation (cres : Except PyExc SalesCase) :
    (∀ m, cres = .error (.valueError m) →
      create_new_sales_case cres = .httpError 400 m)
    ∧ (∀ c, cres = .ok c → create_new_sales_case cres = .response 201 c) := by
  refine ⟨fun m hm => ?_, fun c hc => ?_⟩ <;> unfold create_new_sales_case
  · rw [hm]
  · rw [hc]

/-- Witness for C5 at concrete inputs: one error outcome, one success. -/
theorem C5_witness :
    create_new_sales_case (Except.error (PyExc.valueError "insufficient stock")) =
      .httpError 400 "insufficient stock"
    ∧ create_new_sales_case (Except.ok ⟨9, 4, 1⟩) = .response 201 ⟨9, 4, 1⟩ :=
  ⟨(C5_create_translation (Except.error (PyExc.valueError "insufficient stock"))).1
      "insufficient stock" rfl,
   (C5_create_translation (Except.ok ⟨9, 4, 1⟩)).2 ⟨9, 4, 1⟩ rfl⟩

/-- C6: an exception that is neither a `ValueError` nor (in the return
endpoint) a `PermissionError` is not caught or translated by any handler:
it propagates unchanged out of the create, list and return handlers (the
list handler has no `try/except` at all). -/
theorem C6_other_exceptions_propagate {Req Rep : Type}
    (cres : Except PyExc SalesCase)
    (glist : User → Option SalesCaseStatus → Option Int →
      Except PyExc (List SalesCase))
    (p : Int → Req → User → Except PyExc Rep)
    (st : Option SalesCaseStatus) (rid : Option Int) (u : User)
    (case_id : Int) (req : Req) :
    (∀ e, (∀ m, e ≠ PyExc.valueError m) → cres = .error e →
      create_new_sales_case cres = .uncaught e)
    ∧ (∀ e, glist u st rid = .error e →
      read_sales_cases glist st rid u = .uncaught e)
    ∧ (∀ e, (∀ m, e ≠ PyExc.valueError m) →
      (∀ m, e ≠ PyExc.permissionError m) →
      p case_id req u = .error e →
      return_sales_case p case_id req u = .uncaught e) := by
  refine ⟨fun e hv hc => ?_, fun e hg => ?_, fun e hv hp hq => ?_⟩
  · unfold create_new_sales_case
    rw [hc]
    cases e with
    | valueError m => exact absurd rfl (hv m)
    | permissionError m => rfl
    | otherError n m => rfl
  · unfold read_sales_cases
    rw [hg]
  · unfold return_sales_case
    rw [hq]
    cases e with
    | valueError m => exact absurd rfl (hv m)
    | permissionError m => exact absurd rfl (hp m)
    | otherError n m => rfl

/-- Witness for C6 at concrete inputs: an `otherError` (a database
exception, say) propagates out of each of the three handlers. -/
theorem C6_witness :
    create_new_sales_case (Except.error (PyExc.otherError "OperationalError" "db down")) =
      .uncaught (PyExc.otherError "OperationalError" "db down")
    ∧ read_sales_cases
      (fun _ _ _ => (Except.error (PyExc.otherError "OperationalError" "db down") :
        Except PyExc (List SalesCase))) none none ⟨1, UserRole.ADMIN⟩ =
      .uncaught (PyExc.otherError "OperationalError" "db down")
    ∧ return_sales_case
      (fun _ _ _ => (Except.error (PyExc.otherError "OperationalError" "db down") :
        Except PyExc Nat)) 3 (0 : Nat) ⟨1, UserRole.ADMIN⟩ =
      .uncaught (PyExc.otherError "OperationalError" "db down") :=
  ⟨(C6_other_exceptions_propagate
      (Except.error (PyExc.otherError "OperationalError" "db down"))
      (fun _ _ _ => Except.ok [])
      (fun _ _ _ => (Except.ok 0 : Except PyExc Nat))
      none none ⟨1, UserRole.ADMIN⟩ 3 (0 : Nat)).1
      (PyExc.otherError "OperationalError" "db down")
      (fun _ h => PyExc.noConfusion h) rfl,
   (C6_other_exceptions_propagate (Except.ok ⟨1, 1, 0⟩)
      (fun _ _ _ => (Except.error (PyExc.otherError "OperationalError" "db down") :
        Except PyExc (List SalesCase)))
      (fun _ _ _ => (Except.ok 0 : Except PyExc Nat))
      none none ⟨1, UserRole.ADMIN⟩ 3 (0 : Nat)).2.1
      (PyExc.otherError "OperationalError" "db down") rfl,
   (C6_other_exceptions_propagate (Except.ok ⟨1, 1, 0⟩)
      (fun _ _ _ => Except.ok [])
      (fun _ _ _ => (Except.error (PyExc.otherError "OperationalError" "db down") :
        Except PyExc Nat))
      none none ⟨1, UserRole.ADMIN⟩ 3 (0 : Nat)).2.2
      (PyExc.otherError "OperationalError" "db down")
      (fun _ h => PyExc.noConfusion h) (fun _ h => PyExc.noConfusion h) rfl⟩

/-- C7: the list handler passes the caller and both filters unchanged to
`crud.get_sales_cases` and returns its result unchanged — no filtering,
scoping or error translation of its own. -/
theorem C7_list_passthrough
    (glist : User → Option SalesCaseStatus → Option Int →
      Except PyExc (List SalesCase))
    (st : Option SalesCaseStatus) (rid : Option Int) (u : User) :
    (∀ cs, glist u st rid = .ok cs →
      read_sales_cases glist st rid u = .response 200 cs)
    ∧ (∀ e, glist u st rid = .error e →
      read_sales_cases glist st rid u = .uncaught e) := by
  refine ⟨fun cs hcs => ?_, fun e he => ?_⟩ <;> unfold read_sales_cases
  · rw [hcs]
  · rw [he]

/-- Witness for C7 at concrete inputs: a successful CRUD result is
returned as-is, a CRUD exception is propagated as-is. -/
theorem C7_witness :
    read_sales_cases (fun _ _ _ => Except.ok ([⟨1, 2, 0⟩, ⟨2, 3, 1⟩] : List SalesCase))
      (some 1) (some 3) ⟨7, UserRole.ADMIN⟩ =
      .response 200 [⟨1, 2, 0⟩, ⟨2, 3, 1⟩]
    ∧ read_sales_cases
      (fun _ _ _ => (Except.error (PyExc.otherError "TimeoutError" "slow") :
        Except PyExc (List SalesCase))) none none ⟨7, UserRole.SALES_REP⟩ =
      .uncaught (PyExc.otherError "TimeoutError" "slow") :=
  ⟨(C7_list_passthrough
      (fun _ _ _ => Except.ok ([⟨1, 2, 0⟩, ⟨2, 3, 1⟩] : List SalesCase))
      (some 1) (some 3) ⟨7, UserRole.ADMIN⟩).1 [⟨1, 2, 0⟩, ⟨2, 3, 1⟩] rfl,
   (C7_list_passthrough
      (fun _ _ _ => (Except.error (PyExc.otherError "TimeoutError" "slow") :
        Except PyExc (List SalesCase)))
      none none ⟨7, UserRole.SALES_REP⟩).2
      (PyExc.otherError "TimeoutError" "slow") rfl⟩

/-- C8: when the caller is a `SALES_REP`, every case in the list returned
by `GET /sales-cases/` (the router over the spec-modelled
`crud.get_sales_cases`) has the caller's id as its `sales_rep_id`, for
every stored database and every filter combination — so another rep's
case never appears in the result. -/
theorem C8_rep_list_scoped
    (db : List SalesCase) (st : Option SalesCaseStatus) (rid : Option Int)
    (u : User) (cs : List SalesCase) (c : SalesCase)
    (hrole : u.role = UserRole.SALES_REP)
    (hres : read_sales_cases (fun v s r => Except.ok (get_sales_cases db v s r))
      st rid u = .response 200 cs)
    (hc : c ∈ cs) : c.sales_rep_id = u.id := by
  have hcs : get_sales_cases db u st rid = cs := by
    unfold read_sales_cases at hres
    injection hres
  rw [← hcs] at hc
  unfold get_sales_cases at hc
  rw [hrole] at hc
  exact eq_of_beq (List.mem_filter.mp hc).2

/-- Witness for C8 at a concrete input: rep 2 lists cases over a database
holding one case of rep 2 and one of rep 3 and receives exactly the rep-2
case. -/
theorem C8_witness :
    read_sales_cases
      (fun v s r => Except.ok (get_sales_cases [⟨1, 2, 0⟩, ⟨2, 3, 0⟩] v s r))
      none none ⟨2, UserRole.SALES_REP⟩ = .response 200 [⟨1, 2, 0⟩]
    ∧ (⟨1, 2, 0⟩ : SalesCase).sales_rep_id = (⟨2, UserRole.SALES_REP⟩ : User).id :=
  ⟨by decide,
   C8_rep_list_scoped [⟨1, 2, 0⟩, ⟨2, 3, 0⟩] none none ⟨2, UserRole.SALES_REP⟩
     [⟨1, 2, 0⟩] ⟨1, 2, 0⟩ rfl (by decide) (by decide)⟩

/-- C9: in `GET /sales-cases/{case_id}` the absence check comes first:
a `None` lookup yields HTTP 404 for every caller (never 403), and the
403 outcome implies the case exists (and the caller is a non-owning
`SALES_REP`). -/
theorem C9_absence_check_first
    (g : Int → Option SalesCase) (case_id : Int) (u : User) :
    (g case_id = none →
      read_sales_case g case_id u = .httpError 404 "Sales case not found")
    ∧ (∀ d, read_sales_case g case_id u = .httpError 403 d →
      ∃ c, g case_id = some c ∧ u.role = UserRole.SALES_REP
        ∧ c.sales_rep_id ≠ u.id) := by
  refine ⟨fun h => ?_, fun d hd => ?_⟩
  · unfold read_sales_case
    rw [h]
  · cases hg : g case_id with
    | none =>
        have h404 : read_sales_case g case_id u =
            .httpError 404 "Sales case not found" := by
          unfold read_sales_case
          rw [hg]
        rw [h404] at hd
        injection hd with hcode hdetail
        exact absurd hcode (by decide)
    | some c =>
        have hrw : read_sales_case g case_id u =
            if u.role = UserRole.SALES_REP ∧ c.sales_rep_id ≠ u.id
            then .httpError 403 "Not authorized to view this sales case"
            else .response 200 c := by
          unfold read_sales_case
          rw [hg]
        rw [hrw] at hd
        by_cases hcond : u.role = UserRole.SALES_REP ∧ c.sales_rep_id ≠ u.id
        · exact ⟨c, rfl, hcond.1, hcond.2⟩
        · rw [if_neg hcond] at hd
          exact HandlerResult.noConfusion hd

/-- Witness for C9 at concrete inputs: a non-owning rep gets 404 (not
403) on an absent case, and a 403 outcome exhibits an existing case owned
by someone else. -/
theorem C9_witness :
    read_sales_case (fun _ => none) 5 ⟨1, UserRole.SALES_REP⟩ =
      .httpError 404 "Sales case not found"
    ∧ ∃ c, (fun _ : Int => some (⟨1, 2, 0⟩ : SalesCase)) 5 = some c
        ∧ (⟨9, UserRole.SALES_REP⟩ : User).role = UserRole.SALES_REP
        ∧ c.sales_rep_id ≠ (⟨9, UserRole.SALES_REP⟩ : User).id :=
  ⟨(C9_absence_check_first (fun _ => none) 5 ⟨1, UserRole.SALES_REP⟩).1 rfl,
   (C9_absence_check_first (fun _ => some ⟨1, 2, 0⟩) 5
      ⟨9, UserRole.SALES_REP⟩).2 "Not authorized to view this sales case"
      (by decide)⟩

/-- C10: the return handler never issues an HTTP 404 of its own — its
outcome is always HTTP 400 (ValueError), HTTP 403 (PermissionError),
HTTP 200 (success) or an uncaught exception (`statusCode` is `none`),
whatever `crud.process_sales_case_return` does; there is no existence
check in the router. -/
theorem C10_return_never_404 {Req Rep : Type}
    (p : Int → Req → User → Except PyExc Rep)
    (case_id : Int) (req : Req) (u : User) :
    (return_sales_case p case_id req u).statusCode ∈
      ([some 400, some 403, some 200, none] : List (Option Nat)) := by
  unfold return_sales_case
  cases hp : p case_id req u with
  | ok r => simp [HandlerResult.statusCode]
  | error e => cases e <;> simp [HandlerResult.statusCode]
